import Mathlib

/-!
Shallow embedding of the configuration-resolution component of
`op-stack-executor` (`src/config.py`).

The process environment is modelled as a total function from variable
names to `Option String` (`none` = unset).  A dotenv file is modelled as
`Option (List String)`: `none` means the file does not exist, `some ls`
is its list of lines.  Python truthiness of an optional string (`None`
and `""` are falsy) is `truthyOpt`.  Field and function names follow the
source (`Config.load_from_env`, `Config.load_from_dotenv`,
`Config.authentication_mode`, `Config.setup_environment`,
`Config.is_configured`, `Config.validate`, `setup_config`,
`ensure_configured`).
-/

namespace OpStack

/-- Python truthiness of an `Optional[str]`: `None` and the empty string
are falsy, every other string is truthy. -/
def truthyOpt : Option String → Bool
  | none => false
  | some s => s ≠ ""

/-- The process environment variable table. -/
def EnvMap : Type := String → Option String

/-- `os.environ[k] = v`. -/
def EnvMap.setVar (e : EnvMap) (k v : String) : EnvMap :=
  fun x => if x = k then some v else e x

/-- `del os.environ[k]` (total: deleting an absent key is a no-op here,
which is the only way the source uses it, guarded by a membership test). -/
def EnvMap.delVar (e : EnvMap) (k : String) : EnvMap :=
  fun x => if x = k then none else e x

/-- `k in os.environ`. -/
def EnvMap.hasVar (e : EnvMap) (k : String) : Bool :=
  (e k).isSome

/-- The environment with no variables set. -/
def emptyEnv : EnvMap := fun _ => none

/-- The configuration state (`Config.__init__` fields). -/
structure Config where
  aws_bedrock_api_key : Option String
  model_id : String
  aws_region : String
  use_iam_role : Bool
deriving DecidableEq, Repr

/-- The defaults installed by `Config.__init__`. -/
def Config.init : Config :=
  { aws_bedrock_api_key := none
    model_id := "us.anthropic.claude-sonnet-4-20250514-v1:0"
    aws_region := "us-east-1"
    use_iam_role := false }

/-- The truthy spellings of the role-mode flag, lowercased. -/
def truthyFlagValues : List String := ["true", "1", "yes"]

/-- Python `s.lower()` (ASCII case folding, which is all the flag
comparison can distinguish). -/
def pyLower (s : String) : String :=
  String.mk (s.data.map Char.toLower)

/-- `Config.load_from_env`: read the recognized variables from the
process environment.  The credential is assigned unconditionally
(`os.environ.get` may return `None`); model id and region only when the
looked-up value is truthy; the role flag is only forced to `True` by a
truthy value. -/
def Config.load_from_env (c : Config) (env : EnvMap) : Config :=
  let c1 := { c with aws_bedrock_api_key := env "AWS_BEDROCK_API_KEY" }
  let c2 := if truthyOpt (env "AWS_BEDROCK_MODEL_ID") then
      { c1 with model_id := (env "AWS_BEDROCK_MODEL_ID").getD "" }
    else c1
  let regionOpt := if truthyOpt (env "AWS_REGION") then env "AWS_REGION"
    else env "AWS_DEFAULT_REGION"
  let c3 := if truthyOpt regionOpt then { c2 with aws_region := regionOpt.getD "" } else c2
  if truthyFlagValues.contains (pyLower ((env "USE_IAM_ROLE").getD "")) then
    { c3 with use_iam_role := true }
  else c3

/-- The whitespace characters stripped by Python `str.strip()`. -/
def pyWhitespace (c : Char) : Bool :=
  c = ' ' || c = '\t' || c = '\n' || c = '\r' || c = '\x0b' || c = '\x0c'

/-- Drop characters satisfying `p` from both ends of a list. -/
def dropEnds (p : Char → Bool) (l : List Char) : List Char :=
  ((l.dropWhile p).reverse.dropWhile p).reverse

/-- Python `s.strip()`. -/
def pyStrip (s : String) : String :=
  String.mk (dropEnds pyWhitespace s.data)

/-- Python `s.strip(q)` for a single-character argument: remove every
leading and every trailing occurrence of `q`. -/
def pyStripChar (s : String) (q : Char) : String :=
  String.mk (dropEnds (fun c => c = q) s.data)

/-- Python `line.split('=', 1)` given that `'='` occurs: characters
before the first `'='`, and characters after it. -/
def splitFirstEq : List Char → List Char × List Char
  | [] => ([], [])
  | c :: rest =>
    if c = '=' then ([], rest)
    else
      let p := splitFirstEq rest
      (c :: p.1, p.2)

/-- The value transformation of `Config.load_from_dotenv`:
`value.strip().strip(dquote).strip(squote)`. -/
def parseValue (raw : String) : String :=
  pyStripChar (pyStripChar (pyStrip raw) '"') '\''

/-- The key dispatch of `Config.load_from_dotenv`: assign the field a
recognized key names, ignore every other key. -/
def Config.applyKV (c : Config) (key value : String) : Config :=
  if key = "AWS_BEDROCK_API_KEY" then { c with aws_bedrock_api_key := some value }
  else if key = "AWS_BEDROCK_MODEL_ID" then { c with model_id := value }
  else if key = "AWS_REGION" ∨ key = "AWS_DEFAULT_REGION" then { c with aws_region := value }
  else if key = "USE_IAM_ROLE" then
    { c with use_iam_role := truthyFlagValues.contains (pyLower value) }
  else c

/-- One iteration of the file-reading loop of `Config.load_from_dotenv`:
strip the line, skip it when it is blank, a `#` comment, or has no `=`,
otherwise split on the first `=` and dispatch on the key. -/
def Config.processLine (c : Config) (rawLine : String) : Config :=
  let line := pyStrip rawLine
  if line ≠ "" ∧ line.data.head? ≠ some '#' ∧ '=' ∈ line.data then
    let kv := splitFirstEq line.data
    c.applyKV (pyStrip (String.mk kv.1)) (parseValue (String.mk kv.2))
  else c

/-- `Config.load_from_dotenv`: a missing file is a no-op, otherwise the
lines are processed in order. -/
def Config.load_from_dotenv (c : Config) (file : Option (List String)) : Config :=
  match file with
  | none => c
  | some lines => lines.foldl Config.processLine c

/-- `Config.set_api_key`. -/
def Config.set_api_key (c : Config) (k : String) : Config :=
  { c with aws_bedrock_api_key := some k }

/-- `Config.set_model_id`. -/
def Config.set_model_id (c : Config) (m : String) : Config :=
  { c with model_id := m }

/-- `Config.set_aws_region`. -/
def Config.set_aws_region (c : Config) (r : String) : Config :=
  { c with aws_region := r }

/-- `Config.set_use_iam_role`. -/
def Config.set_use_iam_role (c : Config) (b : Bool) : Config :=
  { c with use_iam_role := b }

/-- `Config.authentication_mode`: `api_key` iff the credential is truthy
and the role flag is off, else `iam_role`. -/
def Config.authentication_mode (c : Config) : String :=
  if truthyOpt c.aws_bedrock_api_key && !c.use_iam_role then "api_key" else "iam_role"

/-- `Config.setup_environment`: publish model id, region (and the
fallback region variable when absent), then either publish the
credential (api_key mode) or delete it (iam_role mode). -/
def Config.setup_environment (c : Config) (env : EnvMap) : EnvMap :=
  let e1 := if c.model_id ≠ "" then env.setVar "AWS_BEDROCK_MODEL_ID" c.model_id else env
  let e2 :=
    if c.aws_region ≠ "" then
      let ea := e1.setVar "AWS_REGION" c.aws_region
      if ea.hasVar "AWS_DEFAULT_REGION" then ea
      else ea.setVar "AWS_DEFAULT_REGION" c.aws_region
    else e1
  if c.authentication_mode = "api_key" then
    if truthyOpt c.aws_bedrock_api_key then
      e2.setVar "AWS_BEDROCK_API_KEY" (c.aws_bedrock_api_key.getD "")
    else e2
  else e2.delVar "AWS_BEDROCK_API_KEY"

/-- `Config.is_configured`: credential is not `None`, or the role flag
is set. -/
def Config.is_configured (c : Config) : Bool :=
  c.aws_bedrock_api_key.isSome || c.use_iam_role

/-- The two validation failures (`ValueError` raises of
`Config.validate`; the spec names them `MissingCredentialError` and
`MissingRegionError`). -/
inductive ConfigError where
  | missingCredential
  | missingRegion
deriving DecidableEq, Repr

deriving instance DecidableEq for Except

/-- `Config.validate`: in api_key mode an untruthy credential is an
error; otherwise an empty region is an error. -/
def Config.validate (c : Config) : Except ConfigError Unit :=
  if c.authentication_mode = "api_key" then
    if truthyOpt c.aws_bedrock_api_key then Except.ok ()
    else Except.error ConfigError.missingCredential
  else
    if c.aws_region ≠ "" then Except.ok ()
    else Except.error ConfigError.missingRegion

/-- The managed-runtime detection test used by `setup_config` and
`ensure_configured`. -/
def lambdaMarkers (env : EnvMap) : Bool :=
  truthyOpt (env "AWS_EXECUTION_ENV") || truthyOpt (env "AWS_LAMBDA_FUNCTION_NAME")

/-- `setup_config`: optional file read, optional environment read,
explicit overrides (strings only when truthy, the flag when provided),
managed-runtime auto-detection, then publish.  Returns the final
configuration and the published environment. -/
def setup_config (api_key model_id aws_region : Option String) (use_iam_role : Option Bool)
    (use_dotenv use_env : Bool) (c0 : Config) (file : Option (List String)) (env : EnvMap) :
    Config × EnvMap :=
  let c := if use_dotenv then c0.load_from_dotenv file else c0
  let c := if use_env then c.load_from_env env else c
  let c := if truthyOpt api_key then c.set_api_key (api_key.getD "") else c
  let c := if truthyOpt model_id then c.set_model_id (model_id.getD "") else c
  let c := if truthyOpt aws_region then c.set_aws_region (aws_region.getD "") else c
  let c := match use_iam_role with
    | some b => c.set_use_iam_role b
    | none => c
  let c := if !truthyOpt c.aws_bedrock_api_key && !c.use_iam_role && lambdaMarkers env then
      c.set_use_iam_role true
    else c
  (c, c.setup_environment env)

/-- `ensure_configured`: when unconfigured, load from file then
environment, auto-detect, publish; always validate at the end. -/
def ensure_configured (c0 : Config) (file : Option (List String)) (env : EnvMap) :
    Except ConfigError (Config × EnvMap) :=
  let r : Config × EnvMap :=
    if c0.is_configured then (c0, env)
    else
      let c := (c0.load_from_dotenv file).load_from_env env
      let c := if !c.is_configured && lambdaMarkers env then c.set_use_iam_role true else c
      (c, c.setup_environment env)
  match r.1.validate with
  | Except.ok _ => Except.ok r
  | Except.error e => Except.error e

/-- The quote-stripping rule in the words of the spec, for comparison
with the source's `parseValue`: after trimming whitespace, strip exactly
one layer of surrounding matching quote characters, if present. -/
def specStripOneLayer (s : String) : String :=
  let l := (pyStrip s).data
  if 2 ≤ l.length ∧ (l.head? = some '"' ∨ l.head? = some '\'') ∧ l.head? = l.getLast? then
    String.mk ((l.drop 1).dropLast)
  else String.mk l

/-! Helper lemmas: field projections of the source operations. -/

@[simp] theorem truthyOpt_none : truthyOpt none = false := rfl

@[simp] theorem truthyOpt_some (s : String) : truthyOpt (some s) = decide (s ≠ "") := rfl

theorem truthyOpt_ne_none {o : Option String} (h : truthyOpt o = true) : o ≠ none := by
  cases o <;> simp [truthyOpt] at h ⊢

theorem truthyOpt_getD {o : Option String} (h : truthyOpt o = true) : o.getD "" ≠ "" := by
  cases o <;> simp [truthyOpt] at h ⊢
  exact h

@[simp] theorem load_from_env_api_key (c : Config) (env : EnvMap) :
    (c.load_from_env env).aws_bedrock_api_key = env "AWS_BEDROCK_API_KEY" := by
  simp only [Config.load_from_env]
  split_ifs <;> rfl

@[simp] theorem load_from_env_model_id (c : Config) (env : EnvMap) :
    (c.load_from_env env).model_id =
      (if truthyOpt (env "AWS_BEDROCK_MODEL_ID") then (env "AWS_BEDROCK_MODEL_ID").getD ""
       else c.model_id) := by
  simp only [Config.load_from_env]
  split_ifs <;> rfl

@[simp] theorem load_from_env_region (c : Config) (env : EnvMap) :
    (c.load_from_env env).aws_region =
      (if truthyOpt (if truthyOpt (env "AWS_REGION") then env "AWS_REGION"
          else env "AWS_DEFAULT_REGION")
       then (if truthyOpt (env "AWS_REGION") then env "AWS_REGION"
          else env "AWS_DEFAULT_REGION").getD ""
       else c.aws_region) := by
  simp only [Config.load_from_env]
  split_ifs <;> rfl

@[simp] theorem load_from_env_flag (c : Config) (env : EnvMap) :
    (c.load_from_env env).use_iam_role =
      (c.use_iam_role || truthyFlagValues.contains (pyLower ((env "USE_IAM_ROLE").getD ""))) := by
  simp only [Config.load_from_env]
  split_ifs with h1 h2 h3 <;> simp_all

@[simp] theorem set_use_iam_role_flag (c : Config) (b : Bool) :
    (c.set_use_iam_role b).use_iam_role = b := rfl

@[simp] theorem set_use_iam_role_api_key (c : Config) (b : Bool) :
    (c.set_use_iam_role b).aws_bedrock_api_key = c.aws_bedrock_api_key := rfl

/-- An environment in which only the managed-runtime function-name
marker is set. -/
def lambdaEnv : EnvMap :=
  fun k => if k = "AWS_LAMBDA_FUNCTION_NAME" then some "test-function" else none

/-- C1 (counterexample): a configuration whose credential is present but
equal to the empty string, with the role flag off, resolves to
`iam_role`, not `api_key` as the claim states — Python truthiness treats
an empty credential as absent. -/
theorem c1_counterexample :
    ({ Config.init with aws_bedrock_api_key := some "" } : Config).aws_bedrock_api_key ≠ none ∧
    ({ Config.init with aws_bedrock_api_key := some "" } : Config).use_iam_role = false ∧
    ({ Config.init with aws_bedrock_api_key := some "" } : Config).authentication_mode ≠ "api_key" := by
  decide

/-- C1 (amended): the derived mode is `api_key` exactly when the
credential is present and non-empty (truthy) and the role flag is false,
and `iam_role` exactly otherwise; in particular a true role flag always
yields `iam_role` regardless of the credential. -/
theorem c1_amended (c : Config) :
    (c.authentication_mode = "api_key" ↔
      (truthyOpt c.aws_bedrock_api_key = true ∧ c.use_iam_role = false)) ∧
    (c.authentication_mode = "iam_role" ↔
      (truthyOpt c.aws_bedrock_api_key = false ∨ c.use_iam_role = true)) := by
  cases h1 : truthyOpt c.aws_bedrock_api_key <;> cases h2 : c.use_iam_role <;>
    simp [Config.authentication_mode, h1, h2]

/-- C2 (counterexample): a credential supplied only by the dotenv file
does not survive the environment reader: `load_from_env` assigns the
environment's (absent) credential unconditionally, wiping the file
value. -/
theorem c2_counterexample :
    (Config.init.load_from_dotenv (some ["AWS_BEDROCK_API_KEY=filekey"])).aws_bedrock_api_key =
      some "filekey" ∧
    ((Config.init.load_from_dotenv (some ["AWS_BEDROCK_API_KEY=filekey"])).load_from_env
        emptyEnv).aws_bedrock_api_key = none := by
  decide

/-- C2 (amended): in the file-then-environment merge, the model id and
region follow the claimed rule (environment if it supplies a truthy
value, else the file result, else the default), and a truthy environment
role flag forces the flag true while otherwise the file result stands;
but the credential always ends up exactly equal to the environment's
value — absent included — so a file-only credential does not survive. -/
theorem c2_amended (file : Option (List String)) (env : EnvMap) :
    ((Config.init.load_from_dotenv file).load_from_env env).aws_bedrock_api_key =
      env "AWS_BEDROCK_API_KEY" ∧
    ((Config.init.load_from_dotenv file).load_from_env env).model_id =
      (if truthyOpt (env "AWS_BEDROCK_MODEL_ID") then (env "AWS_BEDROCK_MODEL_ID").getD ""
       else (Config.init.load_from_dotenv file).model_id) ∧
    ((Config.init.load_from_dotenv file).load_from_env env).aws_region =
      (if truthyOpt (if truthyOpt (env "AWS_REGION") then env "AWS_REGION"
          else env "AWS_DEFAULT_REGION")
       then (if truthyOpt (env "AWS_REGION") then env "AWS_REGION"
          else env "AWS_DEFAULT_REGION").getD ""
       else (Config.init.load_from_dotenv file).aws_region) ∧
    ((Config.init.load_from_dotenv file).load_from_env env).use_iam_role =
      ((Config.init.load_from_dotenv file).use_iam_role ||
        truthyFlagValues.contains (pyLower ((env "USE_IAM_ROLE").getD ""))) := by
  refine ⟨?_, ?_, ?_, ?_⟩ <;> simp

/-- C3 (counterexample): calling `setup_config` with an explicit
`use_iam_role = false`, no credential, and the Lambda function-name
marker set in the environment returns a configuration whose role flag is
true: auto-detection does override the explicit false. -/
theorem c3_counterexample :
    lambdaEnv "AWS_LAMBDA_FUNCTION_NAME" = some "test-function" ∧
    (setup_config none none none (some false) true true Config.init none lambdaEnv).1.use_iam_role =
      true := by
  decide

/-- C3 (amended): whenever a managed-runtime marker is truthy and the
environment supplies no truthy credential, `setup_config` called with
explicit `use_iam_role = false` (and no explicit credential) returns a
configuration with the role flag forced to true: the auto-detection
guard tests the current falsity of the flag, not whether the caller
provided it. -/
theorem c3_amended (c0 : Config) (file : Option (List String)) (env : EnvMap)
    (hmark : lambdaMarkers env = true)
    (hcred : truthyOpt (env "AWS_BEDROCK_API_KEY") = false) :
    (setup_config none none none (some false) true true c0 file env).1.use_iam_role = true := by
  simp [setup_config, hmark, hcred]

/-- C3 (witness): the amended claim at a concrete input. -/
theorem c3_amended_witness :
    lambdaMarkers lambdaEnv = true ∧
    truthyOpt (lambdaEnv "AWS_BEDROCK_API_KEY") = false ∧
    (setup_config none none none (some false) true true Config.init none lambdaEnv).1.use_iam_role =
      true :=
  ⟨by decide, by decide, c3_amended Config.init none lambdaEnv (by decide) (by decide)⟩

/-- C4 (confirmed): the validator errors with the missing-credential
error exactly when the mode is `api_key` and the credential is absent
(both sides are in fact unsatisfiable, since an `api_key` mode requires
a truthy credential), errors with the missing-region error exactly when
the mode is `iam_role` and the region is empty, and succeeds otherwise;
and the other operations never fail: an absent dotenv file, a line with
no `=`, and an unrecognized key all leave the configuration unchanged
and raise nothing. -/
theorem c4_validator (c : Config) (line key value : String)
    (hline : '=' ∉ (pyStrip line).data)
    (hkey : key ∉ ["AWS_BEDROCK_API_KEY", "AWS_BEDROCK_MODEL_ID", "AWS_REGION",
      "AWS_DEFAULT_REGION", "USE_IAM_ROLE"]) :
    (c.validate = Except.error ConfigError.missingCredential ↔
      (c.authentication_mode = "api_key" ∧ c.aws_bedrock_api_key = none)) ∧
    (c.validate = Except.error ConfigError.missingRegion ↔
      (c.authentication_mode = "iam_role" ∧ c.aws_region = "")) ∧
    (c.validate = Except.ok () ↔
      ¬((c.authentication_mode = "api_key" ∧ c.aws_bedrock_api_key = none) ∨
        (c.authentication_mode = "iam_role" ∧ c.aws_region = ""))) ∧
    c.load_from_dotenv none = c ∧
    c.processLine line = c ∧
    c.applyKV key value = c := by
  refine ⟨?_, ?_, ?_, rfl, ?_, ?_⟩
  · cases h1 : truthyOpt c.aws_bedrock_api_key <;> cases h2 : c.use_iam_role <;>
      by_cases h3 : c.aws_region = "" <;>
      simp [Config.validate, Config.authentication_mode, h1, h2, h3] <;>
      simp [truthyOpt_ne_none h1]
  · cases h1 : truthyOpt c.aws_bedrock_api_key <;> cases h2 : c.use_iam_role <;>
      by_cases h3 : c.aws_region = "" <;>
      simp [Config.validate, Config.authentication_mode, h1, h2, h3]
  · cases h1 : truthyOpt c.aws_bedrock_api_key <;> cases h2 : c.use_iam_role <;>
      by_cases h3 : c.aws_region = "" <;>
      simp [Config.validate, Config.authentication_mode, h1, h2, h3] <;>
      simp [truthyOpt_ne_none h1]
  · simp [Config.processLine, hline]
  · simp only [List.mem_cons, not_or] at hkey
    obtain ⟨k1, k2, k3, k4, k5, -⟩ := hkey
    simp [Config.applyKV, k1, k2, k3, k4, k5]

/-- C4 (witness): the theorem applied at a concrete configuration, a
concrete `=`-free line, and a concrete unrecognized key. -/
theorem c4_validator_witness :
    ('=' ∉ (pyStrip "noequals").data ∧
      "OTHER" ∉ ["AWS_BEDROCK_API_KEY", "AWS_BEDROCK_MODEL_ID", "AWS_REGION",
        "AWS_DEFAULT_REGION", "USE_IAM_ROLE"]) ∧
    Config.init.processLine "noequals" = Config.init ∧
    Config.init.applyKV "OTHER" "v" = Config.init :=
  ⟨⟨by decide, by decide⟩,
    (c4_validator Config.init "noequals" "OTHER" "v" (by decide) (by decide)).2.2.2.2.1,
    (c4_validator Config.init "noequals" "OTHER" "v" (by decide) (by decide)).2.2.2.2.2⟩

/-- C5 (counterexample): an explicit empty-string region argument to
`setup_config` does not overwrite the field: the default region
survives, because the source guards every explicit string argument with
Python truthiness. -/
theorem c5_counterexample :
    (setup_config none none (some "") none false false Config.init none emptyEnv).1.aws_region =
      "us-east-1" ∧ ("us-east-1" : String) ≠ "" := by
  decide

/-- C5 (amended): explicit non-empty string arguments (credential, model
identifier, region) and an explicit boolean role flag overwrite the
corresponding fields unconditionally, whatever the file, the
environment, and the prior state supplied; an explicit empty string is
treated as absent. -/
theorem c5_amended (k m r : String) (b : Bool) (c0 : Config) (file : Option (List String))
    (env : EnvMap) (ud ue : Bool) (hk : k ≠ "") (hm : m ≠ "") (hr : r ≠ "") :
    (setup_config (some k) (some m) (some r) (some b) ud ue c0 file env).1 =
      { aws_bedrock_api_key := some k, model_id := m, aws_region := r, use_iam_role := b } := by
  simp [setup_config, hk, hm, hr, Config.set_api_key, Config.set_model_id,
    Config.set_aws_region, Config.set_use_iam_role]

/-- C5 (witness): the amended claim at concrete non-empty arguments. -/
theorem c5_amended_witness :
    (("key0" : String) ≠ "" ∧ ("model0" : String) ≠ "" ∧ ("region0" : String) ≠ "") ∧
    (setup_config (some "key0") (some "model0") (some "region0") (some false) true true
        Config.init none emptyEnv).1 =
      { aws_bedrock_api_key := some "key0", model_id := "model0", aws_region := "region0",
        use_iam_role := false } :=
  ⟨by decide,
    c5_amended "key0" "model0" "region0" false Config.init none emptyEnv true true (by decide)
      (by decide) (by decide)⟩

/-- C6 (counterexample): the file reader does not leave the role flag
untouched on a non-truthy value: a file containing `USE_IAM_ROLE=no`
resets a previously-true flag to false, unlike the environment
reader. -/
theorem c6_counterexample :
    (Config.init.set_use_iam_role true).use_iam_role = true ∧
    ((Config.init.set_use_iam_role true).load_from_dotenv
        (some ["USE_IAM_ROLE=no"])).use_iam_role = false := by
  decide

/-- C6 (amended): the file reader assigns the role flag unconditionally:
for every prior configuration, processing a parseable line whose key is
the role-mode flag and whose parsed value (lowercased) is not truthy
sets the flag to false, overwriting any prior true. -/
theorem c6_amended (c : Config) (line : String)
    (hcond : pyStrip line ≠ "" ∧ (pyStrip line).data.head? ≠ some '#' ∧ '=' ∈ (pyStrip line).data)
    (hkey : pyStrip (String.mk (splitFirstEq (pyStrip line).data).1) = "USE_IAM_ROLE")
    (hval : truthyFlagValues.contains
        (pyLower (parseValue (String.mk (splitFirstEq (pyStrip line).data).2))) = false) :
    (c.load_from_dotenv (some [line])).use_iam_role = false := by
  have h1 : c.load_from_dotenv (some [line]) = c.processLine line := rfl
  rw [h1]
  simp only [Config.processLine]
  rw [if_pos hcond, hkey]
  simp [Config.applyKV]
  simpa using hval

/-- C6 (witness): the amended claim at the line `USE_IAM_ROLE=no` and a
configuration whose flag was true. -/
theorem c6_amended_witness :
    (pyStrip "USE_IAM_ROLE=no" ≠ "" ∧
      (pyStrip "USE_IAM_ROLE=no").data.head? ≠ some '#' ∧
      '=' ∈ (pyStrip "USE_IAM_ROLE=no").data) ∧
    ((Config.init.set_use_iam_role true).load_from_dotenv
        (some ["USE_IAM_ROLE=no"])).use_iam_role = false :=
  ⟨by decide,
    c6_amended (Config.init.set_use_iam_role true) "USE_IAM_ROLE=no" (by decide) (by decide)
      (by decide)⟩

/-- C7 (counterexample): the invariant fails after a file read or an
explicit setter call: a dotenv line assigning an empty model id or
region, and `set_model_id` with the empty string, all leave an empty
field. -/
theorem c7_counterexample :
    (Config.init.load_from_dotenv (some ["AWS_BEDROCK_MODEL_ID="])).model_id = "" ∧
    (Config.init.load_from_dotenv (some ["AWS_REGION="])).aws_region = "" ∧
    (Config.init.set_model_id "").model_id = "" := by
  decide

/-- C7 (amended): the model identifier and region are non-empty after
initialization, and the environment reader preserves their
non-emptiness (it only overwrites them with truthy values); the file
reader and the explicit setters, in contrast, assign unconditionally
and can make them empty. -/
theorem c7_amended (c : Config) (env : EnvMap) (hm : c.model_id ≠ "") (hr : c.aws_region ≠ "") :
    Config.init.model_id ≠ "" ∧ Config.init.aws_region ≠ "" ∧
    (c.load_from_env env).model_id ≠ "" ∧ (c.load_from_env env).aws_region ≠ "" := by
  refine ⟨by decide, by decide, ?_, ?_⟩
  · rw [load_from_env_model_id]
    split_ifs with h
    · exact truthyOpt_getD h
    · exact hm
  · rw [load_from_env_region]
    split_ifs with h h2 <;>
      first
        | exact hr
        | (apply truthyOpt_getD; assumption)

/-- C7 (witness): the amended claim at the default configuration and the
empty environment. -/
theorem c7_amended_witness :
    (Config.init.model_id ≠ "" ∧ Config.init.aws_region ≠ "") ∧
    (Config.init.load_from_env emptyEnv).model_id ≠ "" ∧
    (Config.init.load_from_env emptyEnv).aws_region ≠ "" :=
  ⟨⟨(c7_amended Config.init emptyEnv (by decide) (by decide)).1,
    (c7_amended Config.init emptyEnv (by decide) (by decide)).2.1⟩,
    (c7_amended Config.init emptyEnv (by decide) (by decide)).2.2.1,
    (c7_amended Config.init emptyEnv (by decide) (by decide)).2.2.2⟩

@[simp] theorem setVar_self (e : EnvMap) (k v : String) : e.setVar k v k = some v := by
  simp [EnvMap.setVar]

@[simp] theorem setVar_ne (e : EnvMap) {x k : String} (v : String) (h : x ≠ k) :
    e.setVar k v x = e x := by
  simp [EnvMap.setVar, h]

@[simp] theorem delVar_self (e : EnvMap) (k : String) : e.delVar k k = none := by
  simp [EnvMap.delVar]

@[simp] theorem delVar_ne (e : EnvMap) {x k : String} (h : x ≠ k) : e.delVar k x = e x := by
  simp [EnvMap.delVar, h]

/-- Pointwise description of the environment publisher: what
`setup_environment` leaves at each variable. -/
theorem setup_environment_apply (c : Config) (env : EnvMap) (x : String) :
    c.setup_environment env x =
      (if x = "AWS_BEDROCK_API_KEY" then
        (if c.authentication_mode = "api_key" then
          (if truthyOpt c.aws_bedrock_api_key then some (c.aws_bedrock_api_key.getD "")
           else env x)
         else none)
      else if x = "AWS_BEDROCK_MODEL_ID" then
        (if c.model_id ≠ "" then some c.model_id else env x)
      else if x = "AWS_REGION" then
        (if c.aws_region ≠ "" then some c.aws_region else env x)
      else if x = "AWS_DEFAULT_REGION" then
        (if c.aws_region ≠ "" ∧ env x = none then some c.aws_region else env x)
      else env x) := by
  by_cases hx1 : x = "AWS_BEDROCK_API_KEY"
  · subst hx1
    simp only [Config.setup_environment]
    split_ifs <;> simp_all [EnvMap.setVar, EnvMap.delVar, EnvMap.hasVar]
  · by_cases hx2 : x = "AWS_BEDROCK_MODEL_ID"
    · subst hx2
      simp only [Config.setup_environment]
      split_ifs <;> simp_all [EnvMap.setVar, EnvMap.delVar, EnvMap.hasVar]
    · by_cases hx3 : x = "AWS_REGION"
      · subst hx3
        simp only [Config.setup_environment]
        split_ifs <;> simp_all [EnvMap.setVar, EnvMap.delVar, EnvMap.hasVar]
      · by_cases hx4 : x = "AWS_DEFAULT_REGION"
        · subst hx4
          simp only [Config.setup_environment]
          split_ifs <;> simp_all [EnvMap.setVar, EnvMap.delVar, EnvMap.hasVar]
        · simp only [Config.setup_environment]
          split_ifs <;> simp_all [EnvMap.setVar, EnvMap.delVar, EnvMap.hasVar]

theorem dropWhile_replicate_append (p : Char → Bool) (a : Char) (ha : p a = true) (n : Nat)
    (l : List Char) : (List.replicate n a ++ l).dropWhile p = l.dropWhile p := by
  induction n with
  | zero => simp
  | succ k ih => simp [List.replicate_succ, List.dropWhile_cons, ha, ih]

theorem dropWhile_head_false (p : Char → Bool) (l : List Char)
    (h : ∀ c, l.head? = some c → p c = false) : l.dropWhile p = l := by
  cases l with
  | nil => rfl
  | cons a t => simp [List.dropWhile_cons, h a rfl]

theorem dropEnds_id (p : Char → Bool) (l : List Char)
    (hh : ∀ c, l.head? = some c → p c = false)
    (hl : ∀ c, l.getLast? = some c → p c = false) : dropEnds p l = l := by
  unfold dropEnds
  rw [dropWhile_head_false p l hh]
  rw [dropWhile_head_false p l.reverse
    (by intro c hc; rw [List.head?_reverse] at hc; exact hl c hc)]
  exact List.reverse_reverse l

theorem dropEnds_runs (p : Char → Bool) (a : Char) (ha : p a = true) (n m : Nat) (l : List Char)
    (hne : l ≠ [])
    (hh : ∀ c, l.head? = some c → p c = false)
    (hl : ∀ c, l.getLast? = some c → p c = false) :
    dropEnds p (List.replicate n a ++ l ++ List.replicate m a) = l := by
  unfold dropEnds
  rw [List.append_assoc, dropWhile_replicate_append p a ha n]
  rw [dropWhile_head_false p (l ++ List.replicate m a)
    (by intro c hc; rw [List.head?_append_of_ne_nil _ hne] at hc; exact hh c hc)]
  rw [List.reverse_append, List.reverse_replicate]
  rw [dropWhile_replicate_append p a ha m]
  rw [dropWhile_head_false p l.reverse
    (by intro c hc; rw [List.head?_reverse] at hc; exact hl c hc)]
  exact List.reverse_reverse l

theorem head?_replicate_append (a : Char) (n : Nat) (l : List Char) :
    ∀ c, (List.replicate n a ++ l).head? = some c → c = a ∨ l.head? = some c := by
  cases n with
  | zero => intro c hc; right; simpa using hc
  | succ k =>
    intro c hc
    left
    simp only [List.replicate_succ, List.cons_append, List.head?_cons, Option.some.injEq] at hc
    exact hc.symm

theorem getLast?_append_replicate (a : Char) (m : Nat) (l : List Char) :
    ∀ c, (l ++ List.replicate m a).getLast? = some c → c = a ∨ l.getLast? = some c := by
  cases m with
  | zero => intro c hc; right; simpa using hc
  | succ k =>
    intro c hc
    left
    rw [List.getLast?_append_of_ne_nil _ (by simp)] at hc
    rw [← List.head?_reverse, List.reverse_replicate] at hc
    simp only [List.replicate_succ, List.head?_cons, Option.some.injEq] at hc
    exact hc.symm

/-- C8 (counterexample): the source's value parsing removes every
leading and trailing quote character, not one matching layer: on the
doubly-quoted input it also strips the inner layer, and on an input with
a single unmatched leading quote it strips that quote too, both unlike
the spec's one-layer rule `specStripOneLayer`. -/
theorem c8_counterexample :
    parseValue "\"\"hi\"\"" = "hi" ∧ specStripOneLayer "\"\"hi\"\"" = "\"hi\"" ∧
    parseValue "\"hi" = "hi" ∧ specStripOneLayer "\"hi" = "\"hi" ∧
    parseValue "\"\"hi\"\"" ≠ specStripOneLayer "\"\"hi\"\"" := by
  decide

/-- C8 (amended): after whitespace trimming, the parser removes every
leading and every trailing double-quote character and then every leading
and trailing single-quote character: for every core string that starts
and ends with a non-whitespace, non-quote character, any number of
surrounding double quotes on either side — matched or not — is stripped
entirely, leaving exactly the core. -/
theorem c8_amended (n m : Nat) (core : List Char) (hne : core ≠ [])
    (hh1 : pyWhitespace (core.headD 'x') = false)
    (hh2 : core.headD 'x' ≠ '"') (hh3 : core.headD 'x' ≠ '\'')
    (hl1 : pyWhitespace (core.getLastD 'x') = false)
    (hl2 : core.getLastD 'x' ≠ '"') (hl3 : core.getLastD 'x' ≠ '\'') :
    parseValue (String.mk (List.replicate n '"' ++ core ++ List.replicate m '"')) =
      String.mk core := by
  have hhead : ∀ c, core.head? = some c → pyWhitespace c = false ∧ c ≠ '"' ∧ c ≠ '\'' := by
    intro c hc
    obtain ⟨a, t, rfl⟩ := List.exists_cons_of_ne_nil hne
    simp only [List.head?_cons, Option.some.injEq] at hc
    subst hc
    simp only [List.headD_cons] at hh1 hh2 hh3
    exact ⟨hh1, hh2, hh3⟩
  have hlast : ∀ c, core.getLast? = some c → pyWhitespace c = false ∧ c ≠ '"' ∧ c ≠ '\'' := by
    intro c hc
    have hd : core.getLastD 'x' = c := by rw [List.getLastD_eq_getLast?, hc]; rfl
    rw [← hd]
    exact ⟨hl1, hl2, hl3⟩
  have hLhead : ∀ c, (List.replicate n '"' ++ core ++ List.replicate m '"').head? = some c →
      c = '"' ∨ core.head? = some c := by
    intro c hc
    rw [List.append_assoc] at hc
    rcases head?_replicate_append '"' n _ c hc with h | h
    · exact Or.inl h
    · rw [List.head?_append_of_ne_nil _ hne] at h
      exact Or.inr h
  have hLlast : ∀ c, (List.replicate n '"' ++ core ++ List.replicate m '"').getLast? = some c →
      c = '"' ∨ core.getLast? = some c := by
    intro c hc
    rcases getLast?_append_replicate '"' m _ c hc with h | h
    · exact Or.inl h
    · rw [List.getLast?_append_of_ne_nil _ hne] at h
      exact Or.inr h
  have e1 : dropEnds pyWhitespace
      (List.replicate n '"' ++ core ++ List.replicate m '"') =
      List.replicate n '"' ++ core ++ List.replicate m '"' := by
    refine dropEnds_id _ _ ?_ ?_
    · intro c hc
      rcases hLhead c hc with rfl | h
      · decide
      · exact (hhead c h).1
    · intro c hc
      rcases hLlast c hc with rfl | h
      · decide
      · exact (hlast c h).1
  have e2 : dropEnds (fun c => c = '"')
      (List.replicate n '"' ++ core ++ List.replicate m '"') = core := by
    refine dropEnds_runs _ '"' (by decide) n m core hne ?_ ?_
    · intro c hc
      simp [(hhead c hc).2.1]
    · intro c hc
      simp [(hlast c hc).2.1]
  have e3 : dropEnds (fun c => c = '\'') core = core := by
    refine dropEnds_id _ _ ?_ ?_
    · intro c hc
      simp [(hhead c hc).2.2]
    · intro c hc
      simp [(hlast c hc).2.2]
  show String.mk (dropEnds _ (String.mk (dropEnds _ (String.mk (dropEnds pyWhitespace
    (List.replicate n '"' ++ core ++ List.replicate m '"'))).data)).data) = String.mk core
  rw [e1]
  rw [show (String.mk (List.replicate n '"' ++ core ++ List.replicate m '"')).data =
    List.replicate n '"' ++ core ++ List.replicate m '"' from rfl]
  rw [e2]
  rw [show (String.mk core).data = core from rfl]
  rw [e3]

/-- C8 (witness): two surrounding double-quote layers on the left and
three on the right of the core `hi` are all stripped. -/
theorem c8_amended_witness :
    (['h', 'i'] : List Char) ≠ [] ∧
    parseValue (String.mk (List.replicate 2 '"' ++ ['h', 'i'] ++ List.replicate 3 '"')) =
      String.mk ['h', 'i'] :=
  ⟨by decide,
    c8_amended 2 3 ['h', 'i'] (by decide) (by decide) (by decide) (by decide) (by decide)
      (by decide) (by decide)⟩

/-- C9 (confirmed): the environment publisher is idempotent — for every
configuration state and every starting environment, publishing twice
leaves the environment exactly as publishing once. -/
theorem c9_idempotent (c : Config) (env : EnvMap) :
    c.setup_environment (c.setup_environment env) = c.setup_environment env := by
  funext x
  rw [setup_environment_apply, setup_environment_apply c env x]
  split_ifs <;> simp_all

/-- C10 (confirmed): when the configuration is already configured
(credential not `None`, or role flag true), `ensure_configured` skips
the file read, the environment read, the auto-detection, and the
publish: it returns the configuration and environment unchanged, with
the result determined solely by the validator. -/
theorem c10_configured_noop (c0 : Config) (file : Option (List String)) (env : EnvMap)
    (h : c0.is_configured = true) :
    ensure_configured c0 file env =
      (match c0.validate with
        | Except.ok _ => Except.ok (c0, env)
        | Except.error e => Except.error e) := by
  simp [ensure_configured, h]

/-- C10 (witness): a configured instance (role flag true) passes through
`ensure_configured` untouched and validates. -/
theorem c10_configured_noop_witness :
    (Config.init.set_use_iam_role true).is_configured = true ∧
    ensure_configured (Config.init.set_use_iam_role true) none emptyEnv =
      Except.ok (Config.init.set_use_iam_role true, emptyEnv) := by
  refine ⟨by decide, ?_⟩
  rw [c10_configured_noop _ _ _ (by decide)]
  rfl

end OpStack
